import Mathlib

/- Verification of the caterwaul regular-expression parser (src/regexp.js).

   The embedding below mirrors the parser of regexp.js rule by rule.
   JavaScript strings are List Char and parse positions are Nat.  The mutable
   parse context of regexp_parse is threaded explicitly: every grammar rule
   receives and returns the ordered registry of capturing-group nodes
   (context.groups) together with a fresh-id counter standing in for
   JavaScript object identity (node() allocates a new object; two nodes are
   the same object exactly when their ids are equal).  A failing rule keeps
   whatever state changes its attempt made, exactly as the JavaScript does,
   since nothing in the source ever rolls the context back; and the alt
   combinator of the source runs the next alternative on that state, so a
   fallback that re-parses is transcribed as a literal second call.  The
   source builds its rules from combinators (char, string, not, any, alt,
   join, many, map); here each grammar rule inlines exactly the combinator
   expression the source gives for it, written as a first-order cascade so
   that the result is executable by the kernel: alt becomes an ordered match
   cascade, join becomes nested matches threading position and state, and a
   map transform is applied at the success site.  The value undefined, which
   arises from out-of-range array reads, is the RNode.undefined constructor; a
   method call or property read on it is modeled as Option.none (a thrown
   TypeError).  Recursive rules carry fuel; regexp_parse supplies more fuel
   than any derivation can consume, because every recursive step of the
   grammar first consumes at least one input character.  Only the default
   configuration (atom mode character, no options argument) is embedded,
   which is the configuration every claim exercises: maybe_munch_spaces is
   zero, which consumes nothing, and maybe_word is other. -/

namespace CaterwaulRegexp

/-- Node payloads: the parser stores strings, numbers (from digit runs) and
    the Infinity sentinel in the data field of its syntax nodes. -/
inductive RData : Type where
  | str : List Char → RData
  | num : Nat → RData
  | inf : RData
deriving DecidableEq

/-- JavaScript string coercion of a data value, as used by the regex tests
    and string interpolations applied to this.data in regexp.js. -/
def RData.toChars : RData → List Char
  | .str s => s
  | .num n => Nat.toDigits 10 n
  | .inf => "Infinity".toList

/-- A regexp syntax-tree node: data, an allocation id standing in for
    JavaScript object identity, and the ordered children.  undefined models the
    JavaScript value undefined stored where a child or array entry was read
    out of range. -/
inductive RNode : Type where
  | undefined : RNode
  | node : RData → Nat → List RNode → RNode

/-- The flags record built from the delimiter suffix. -/
structure Flags where
  i : Bool
  m : Bool
  g : Bool
deriving DecidableEq

/-- Outcome of a successful regexp_parse: the tree, the final group registry
    (what match_groups() returns) and the flags (what i(), m(), g() read). -/
structure ParseResult where
  tree : RNode
  groups : List RNode
  flags : Flags

/-- Outcome of one rule application: on success the node and the next
    position, and in either case the group registry and the id counter after
    the attempt. -/
def RuleRes : Type := Option (RNode × Nat) × List RNode × Nat

/-- s.substr(p, n) of JavaScript. -/
def substr (s : List Char) (p n : Nat) : List Char := (s.drop p).take n

/-- char(c) of regexp.js: the matched character when one of the set is at
    position p; char requires input left and consumes one character. -/
def charHit (s : List Char) (p : Nat) (cset : List Char) : Option Char :=
  match s.get? p with
  | some c => if cset.contains c then some c else none
  | none => none

/-- string(cs) of regexp.js: whether the literal cs is at position p, which
    requires input left; on a hit the caller advances by its length. -/
def stringHit (s : List Char) (p : Nat) (cs : List Char) : Bool :=
  decide (p < s.length) && substr s p cs.length == cs

/-- not(1, char(cset)) of regexp.js: the character at p when there is one
    and the guard parser rejects it. -/
def notHit (s : List Char) (p : Nat) (cset : List Char) : Option Char :=
  match s.get? p with
  | some c => if cset.contains c then none else some c
  | none => none

/-- The digit character set of regexp.js. -/
def digitsSet : List Char := ['0', '1', '2', '3', '4', '5', '6', '7', '8', '9']

/-- The hex character set of regexp.js. -/
def hexSet : List Char :=
  ['0', '1', '2', '3', '4', '5', '6', '7', '8', '9',
   'A', 'B', 'C', 'D', 'E', 'F', 'a', 'b', 'c', 'd', 'e', 'f']

/-- Numeric value of a digit character. -/
def charVal (c : Char) : Nat := c.toNat - 48

/-- Iteration of many(digit) folded to its numeric value, as number of
    regexp.js reads the collected digits. -/
def digitRun (s : List Char) : Nat → Nat → Nat → Nat × Nat
  | 0, p, acc => (acc, p)
  | fuel + 1, p, acc =>
    match charHit s p digitsSet with
    | some c => digitRun s fuel (p + 1) (acc * 10 + charVal c)
    | none => (acc, p)

/-- number of regexp.js: one or more digits read as a decimal numeral,
    returning the value and the next position. -/
def number (s : List Char) (p : Nat) : Option (Nat × Nat) :=
  match charHit s p digitsSet with
  | some c => some (digitRun s (s.length + 1) (p + 1) (charVal c))
  | none => none

/-- The JavaScript statement it.data += x on a node: string append after
    coercion, preserving the node identity. -/
def appendData : RNode → List Char → RNode
  | .undefined, _ => .undefined
  | .node d i kids, x => .node (.str (RData.toChars d ++ x)) i kids

/-- The JavaScript statement it.push(x) on a node: append a child in place,
    preserving the node identity. -/
def pushChild : RNode → RNode → RNode
  | .undefined, _ => .undefined
  | .node d i kids, c => .node d i (kids ++ [c])

/-- positive_lookahead of the atom rule:
    map(join(string (?=, toplevel, string close), node (?= of the body). -/
def positive_lookahead (s : List Char) (top : Nat → List RNode → Nat → RuleRes)
    (p : Nat) (g : List RNode) (k : Nat) : RuleRes :=
  if stringHit s p ['(', '?', '='] then
    match top (p + 3) g k with
    | (some (t, p2), g, k) =>
      if stringHit s p2 [')'] then
        (some (.node (.str ['(', '?', '=']) k [t], p2 + 1), g, k + 1)
      else (none, g, k)
    | (none, g, k) => (none, g, k)
  else (none, g, k)

/-- negative_lookahead of the atom rule, analogous. -/
def negative_lookahead (s : List Char) (top : Nat → List RNode → Nat → RuleRes)
    (p : Nat) (g : List RNode) (k : Nat) : RuleRes :=
  if stringHit s p ['(', '?', '!'] then
    match top (p + 3) g k with
    | (some (t, p2), g, k) =>
      if stringHit s p2 [')'] then
        (some (.node (.str ['(', '?', '!']) k [t], p2 + 1), g, k + 1)
      else (none, g, k)
    | (none, g, k) => (none, g, k)
  else (none, g, k)

/-- forgetful_group of the atom rule, analogous. -/
def forgetful_group (s : List Char) (top : Nat → List RNode → Nat → RuleRes)
    (p : Nat) (g : List RNode) (k : Nat) : RuleRes :=
  if stringHit s p ['(', '?', ':'] then
    match top (p + 3) g k with
    | (some (t, p2), g, k) =>
      if stringHit s p2 [')'] then
        (some (.node (.str ['(', '?', ':']) k [t], p2 + 1), g, k + 1)
      else (none, g, k)
    | (none, g, k) => (none, g, k)
  else (none, g, k)

/-- group of the atom rule: build the node and register it with add_group at
    the moment the closing parenthesis is matched.  The registration is part
    of the map transform, so it happens even when an enclosing alternative
    later fails. -/
def group (s : List Char) (top : Nat → List RNode → Nat → RuleRes)
    (p : Nat) (g : List RNode) (k : Nat) : RuleRes :=
  if stringHit s p ['('] then
    match top (p + 1) g k with
    | (some (t, p2), g, k) =>
      if stringHit s p2 [')'] then
        (some (.node (.str ['(']) k [t], p2 + 1), g ++ [.node (.str ['(']) k [t]], k + 1)
      else (none, g, k)
    | (none, g, k) => (none, g, k)
  else (none, g, k)

/-- each of the character-class body: alt of a range (any(1), dash, any(1)),
    an escaped pair, and any single character the closing-bracket guard
    rejects; all three alternatives are free of context effects. -/
def each (s : List Char) (p : Nat) (g : List RNode) (k : Nat) : RuleRes :=
  match s.get? p, charHit s (p + 1) ['-'], s.get? (p + 2) with
  | some a, some _, some b =>
    (some (.node (.str ['-']) (k + 2)
      [.node (.str [a]) k [], .node (.str [b]) (k + 1) []], p + 3), g, k + 3)
  | _, _, _ =>
    match charHit s p ['\\'], s.get? (p + 1) with
    | some c, some v => (some (.node (.str [c, v]) k [], p + 2), g, k + 1)
    | _, _ =>
      match notHit s p [']'] with
      | some c => (some (.node (.str [c]) k [], p + 1), g, k + 1)
      | none => (none, g, k)

/-- character_class of the atom rule: alt(map(join(each, character_class),
    comma node), each); the fallback re-runs each on the state the failed
    first alternative left, as alt does in the source. -/
def character_class (s : List Char) : Nat → Nat → List RNode → Nat → RuleRes
  | 0, _, g, k => (none, g, k)
  | fuel + 1, p, g, k =>
    match each s p g k with
    | (some (a, p2), g, k) =>
      match character_class s fuel p2 g k with
      | (some (b, p3), g, k) => (some (.node (.str [',']) k [a, b], p3), g, k + 1)
      | (none, g, k) => each s p g k
    | (none, g, k) => each s p g k

/-- character_not_in of the atom rule. -/
def character_not_in (s : List Char) (p : Nat) (g : List RNode) (k : Nat) : RuleRes :=
  if stringHit s p ['[', '^'] then
    match character_class s (s.length + 1) (p + 2) g k with
    | (some (t, p2), g, k) =>
      if stringHit s p2 [']'] then
        (some (.node (.str ['[', '^']) k [t], p2 + 1), g, k + 1)
      else (none, g, k)
    | (none, g, k) => (none, g, k)
  else (none, g, k)

/-- character_in of the atom rule. -/
def character_in (s : List Char) (p : Nat) (g : List RNode) (k : Nat) : RuleRes :=
  if stringHit s p ['['] then
    match character_class s (s.length + 1) (p + 1) g k with
    | (some (t, p2), g, k) =>
      if stringHit s p2 [']'] then
        (some (.node (.str ['[']) k [t], p2 + 1), g, k + 1)
      else (none, g, k)
    | (none, g, k) => (none, g, k)
  else (none, g, k)

/-- zero_width of the atom rule: caret or dollar. -/
def zero_width (s : List Char) (p : Nat) (g : List RNode) (k : Nat) : RuleRes :=
  match charHit s p ['^', '$'] with
  | some c => (some (.node (.str [c]) k [], p + 1), g, k + 1)
  | none => (none, g, k)

/-- The escapable specials of the escaped rule, in source order. -/
def escapedSet : List Char :=
  ['B', 'b', 'W', 'w', 'S', 's', 'D', 'd', 'f', 'n', 'r', 't', 'v', '0',
   '*', '+', '.', '?', '|', '(', ')', '[', ']', '\x7b', '\x7d', '\\', '$', '^']

/-- escaped of the atom rule: backslash plus one of the listed specials. -/
def escaped (s : List Char) (p : Nat) (g : List RNode) (k : Nat) : RuleRes :=
  match charHit s p ['\\'], charHit s (p + 1) escapedSet with
  | some a, some b => (some (.node (.str [a, b]) k [], p + 2), g, k + 1)
  | _, _ => (none, g, k)

/-- escaped_slash of the atom rule. -/
def escaped_slash (s : List Char) (p : Nat) (g : List RNode) (k : Nat) : RuleRes :=
  if stringHit s p ['\\', '/'] then
    (some (.node (.str ['/']) k [], p + 2), g, k + 1)
  else (none, g, k)

/-- control of the atom rule: backslash c and any one character. -/
def control (s : List Char) (p : Nat) (g : List RNode) (k : Nat) : RuleRes :=
  if stringHit s p ['\\', 'c'] then
    match s.get? (p + 2) with
    | some v => (some (.node (.str ['\\', 'c', v]) k [], p + 3), g, k + 1)
    | none => (none, g, k)
  else (none, g, k)

/-- hex_code of the atom rule. -/
def hex_code (s : List Char) (p : Nat) (g : List RNode) (k : Nat) : RuleRes :=
  if stringHit s p ['\\', 'x'] then
    match charHit s (p + 2) hexSet, charHit s (p + 3) hexSet with
    | some h1, some h2 => (some (.node (.str ['\\', 'x', h1, h2]) k [], p + 4), g, k + 1)
    | _, _ => (none, g, k)
  else (none, g, k)

/-- unicode of the atom rule. -/
def unicode (s : List Char) (p : Nat) (g : List RNode) (k : Nat) : RuleRes :=
  if stringHit s p ['\\', 'u'] then
    match charHit s (p + 2) hexSet, charHit s (p + 3) hexSet,
      charHit s (p + 4) hexSet, charHit s (p + 5) hexSet with
    | some h1, some h2, some h3, some h4 =>
      (some (.node (.str ['\\', 'u', h1, h2, h3, h4]) k [], p + 6), g, k + 1)
    | _, _, _, _ => (none, g, k)
  else (none, g, k)

/-- single_digit_backreference of the atom rule: the source binds the second
    child to context.groups[digit], a zero-based array read with no bounds
    check, so an out-of-range digit stores undefined as the child. -/
def single_digit_backreference (s : List Char) (p : Nat) (g : List RNode) (k : Nat) :
    RuleRes :=
  match charHit s p ['\\'], charHit s (p + 1) digitsSet with
  | some _, some d =>
    (some (.node (.str ['\\']) (k + 1)
      [.node (.num (charVal d)) k [], g.getD (charVal d) .undefined], p + 2), g, k + 2)
  | _, _ => (none, g, k)

/-- backreference of the atom rule: read two digits and accept that reading
    when the value is at most context.groups.length, binding context.groups
    at the value itself, zero based; otherwise fall back to the single-digit
    reading from the original position. -/
def backreference (s : List Char) (p : Nat) (g : List RNode) (k : Nat) : RuleRes :=
  match charHit s p ['\\'], charHit s (p + 1) digitsSet, charHit s (p + 2) digitsSet with
  | some _, some d1, some d2 =>
    if 10 * charVal d1 + charVal d2 ≤ g.length then
      (some (.node (.str ['\\']) (k + 1)
        [.node (.num (10 * charVal d1 + charVal d2)) k [],
         g.getD (10 * charVal d1 + charVal d2) .undefined], p + 3), g, k + 2)
    else single_digit_backreference s p g k
  | _, _, _ => single_digit_backreference s p g k

/-- dot of the atom rule. -/
def dot (s : List Char) (p : Nat) (g : List RNode) (k : Nat) : RuleRes :=
  match charHit s p ['.'] with
  | some c => (some (.node (.str [c]) k [], p + 1), g, k + 1)
  | none => (none, g, k)

/-- other of the atom rule: one character the delimiter guard rejects.  The
    guard set has the close parenthesis, the pipe, the quantifier characters
    and the open brace, but not the open parenthesis. -/
def other (s : List Char) (p : Nat) (g : List RNode) (k : Nat) : RuleRes :=
  match notHit s p [')', '|', '+', '*', '?', '\x7b'] with
  | some c => (some (.node (.str [c]) k [], p + 1), g, k + 1)
  | none => (none, g, k)

/-- base, which is atom, in the default character atom mode:
    maybe_munch_spaces is zero (consumes nothing) and maybe_word is other;
    the fifteen alternatives are tried in source order, each on the state
    the previous failed attempt left. -/
def atom (s : List Char) (top : Nat → List RNode → Nat → RuleRes)
    (p : Nat) (g : List RNode) (k : Nat) : RuleRes :=
  match positive_lookahead s top p g k with
  | (some r, g, k) => (some r, g, k)
  | (none, g, k) =>
  match negative_lookahead s top p g k with
  | (some r, g, k) => (some r, g, k)
  | (none, g, k) =>
  match forgetful_group s top p g k with
  | (some r, g, k) => (some r, g, k)
  | (none, g, k) =>
  match group s top p g k with
  | (some r, g, k) => (some r, g, k)
  | (none, g, k) =>
  match character_not_in s p g k with
  | (some r, g, k) => (some r, g, k)
  | (none, g, k) =>
  match character_in s p g k with
  | (some r, g, k) => (some r, g, k)
  | (none, g, k) =>
  match zero_width s p g k with
  | (some r, g, k) => (some r, g, k)
  | (none, g, k) =>
  match escaped s p g k with
  | (some r, g, k) => (some r, g, k)
  | (none, g, k) =>
  match escaped_slash s p g k with
  | (some r, g, k) => (some r, g, k)
  | (none, g, k) =>
  match control s p g k with
  | (some r, g, k) => (some r, g, k)
  | (none, g, k) =>
  match hex_code s p g k with
  | (some r, g, k) => (some r, g, k)
  | (none, g, k) =>
  match unicode s p g k with
  | (some r, g, k) => (some r, g, k)
  | (none, g, k) =>
  match backreference s p g k with
  | (some r, g, k) => (some r, g, k)
  | (none, g, k) =>
  match dot s p g k with
  | (some r, g, k) => (some r, g, k)
  | (none, g, k) => other s p g k

/-- question_mark of the term rule. -/
def question_mark (s : List Char) (p : Nat) (g : List RNode) (k : Nat) : RuleRes :=
  match charHit s p ['?'] with
  | some c => (some (.node (.str [c]) k [], p + 1), g, k + 1)
  | none => (none, g, k)

/-- Pure recognizer of the first repetition form: brace, number, brace. -/
def repetition_mm (s : List Char) (p : Nat) : Option (Nat × Nat) :=
  if (charHit s p ['\x7b']).isSome then
    match number s (p + 1) with
    | some (n, p2) => if (charHit s p2 ['\x7d']).isSome then some (n, p2 + 1) else none
    | none => none
  else none

/-- Pure recognizer of the second repetition form: brace, number, comma,
    brace. -/
def repetition_mcomma (s : List Char) (p : Nat) : Option (Nat × Nat) :=
  if (charHit s p ['\x7b']).isSome then
    match number s (p + 1) with
    | some (n, p2) =>
      if (charHit s p2 [',']).isSome && (charHit s (p2 + 1) ['\x7d']).isSome
      then some (n, p2 + 2) else none
    | none => none
  else none

/-- Pure recognizer of the third repetition form: brace, number, comma,
    number, brace. -/
def repetition_mn (s : List Char) (p : Nat) : Option ((Nat × Nat) × Nat) :=
  if (charHit s p ['\x7b']).isSome then
    match number s (p + 1) with
    | some (n1, p2) =>
      if (charHit s p2 [',']).isSome then
        match number s (p2 + 1) with
        | some (n2, p3) =>
          if (charHit s p3 ['\x7d']).isSome then some ((n1, n2), p3 + 1) else none
        | none => none
      else none
    | none => none
  else none

/-- repetition of the term rule: the three brace forms in source order, the
    recognizers being free of context effects; the node transforms allocate
    the two bound children before the brace node, as the source argument
    order does. -/
def repetition (s : List Char) (p : Nat) (g : List RNode) (k : Nat) : RuleRes :=
  match repetition_mm s p with
  | some (n, p2) =>
    (some (.node (.str ['\x7b']) (k + 2)
      [.node (.num n) k [], .node (.num n) (k + 1) []], p2), g, k + 3)
  | none =>
  match repetition_mcomma s p with
  | some (n, p2) =>
    (some (.node (.str ['\x7b']) (k + 2)
      [.node (.num n) k [], .node .inf (k + 1) []], p2), g, k + 3)
  | none =>
  match repetition_mn s p with
  | some ((n1, n2), p2) =>
    (some (.node (.str ['\x7b']) (k + 2)
      [.node (.num n1) k [], .node (.num n2) (k + 1) []], p2), g, k + 3)
  | none => (none, g, k)

/-- modifier of the term rule: alt(star, plus, repetition); the question
    mark is deliberately omitted in the source because it cannot be
    non-greedy. -/
def modifier (s : List Char) (p : Nat) (g : List RNode) (k : Nat) : RuleRes :=
  match charHit s p ['*'] with
  | some c => (some (.node (.str [c]) k [], p + 1), g, k + 1)
  | none =>
  match charHit s p ['+'] with
  | some c => (some (.node (.str [c]) k [], p + 1), g, k + 1)
  | none => repetition s p g k

/-- modifiers of the term rule: alt(map(join(modifier, non_greedy), data
    append), modifier, question_mark); when the join fails the second
    alternative re-runs modifier from the original position on the state the
    failed attempt left, as alt does in the source. -/
def modifiers (s : List Char) (p : Nat) (g : List RNode) (k : Nat) : RuleRes :=
  match modifier s p g k with
  | (some (m, p2), g, k) =>
    match charHit s p2 ['?'] with
    | some q => (some (appendData m [q], p2 + 1), g, k)
    | none =>
      match modifier s p g k with
      | (some (m2, p3), g, k) => (some (m2, p3), g, k)
      | (none, g, k) => question_mark s p g k
  | (none, g, k) =>
    match modifier s p g k with
    | (some (m2, p3), g, k) => (some (m2, p3), g, k)
    | (none, g, k) => question_mark s p g k

/-- term: alt(map(join(atom, modifiers), push the atom onto the modifier
    node), atom); when the join fails, the fallback re-parses the atom from
    the original position on the state the failed attempt left, as alt does
    in the source. -/
def term (s : List Char) (top : Nat → List RNode → Nat → RuleRes)
    (p : Nat) (g : List RNode) (k : Nat) : RuleRes :=
  match atom s top p g k with
  | (some (a, p2), g, k) =>
    match modifiers s p2 g k with
    | (some (m, p3), g, k) => (some (pushChild m a, p3), g, k)
    | (none, g, k) => atom s top p g k
  | (none, g, k) => atom s top p g k

/-- no_pipes of the toplevel rule: alt(map(join(term, no_pipes), comma
    node), term); the fallback re-parses the term from the original position
    on the state the failed attempt left. -/
def no_pipes (s : List Char) (top : Nat → List RNode → Nat → RuleRes) :
    Nat → Nat → List RNode → Nat → RuleRes
  | 0, _, g, k => (none, g, k)
  | fuel + 1, p, g, k =>
    match term s top p g k with
    | (some (t1, p2), g, k) =>
      match no_pipes s top fuel p2 g k with
      | (some (t2, p3), g, k) => (some (.node (.str [',']) k [t1, t2], p3), g, k + 1)
      | (none, g, k) => term s top p g k
    | (none, g, k) => term s top p g k

/-- toplevel of the grammar: alt(map(join(no_pipes, pipe, toplevel), pipe
    node), no_pipes); every failure of the join falls back to re-parsing
    no_pipes from the original position on the state the failed attempt
    left.  The outer fuel only bounds nesting through groups and chained
    pipes, both of which consume input first, and the no_pipes fuel bounds
    its term chain, which also consumes input, so the supply in run_parse
    never runs out. -/
def toplevel (s : List Char) : Nat → Nat → List RNode → Nat → RuleRes
  | 0, _, g, k => (none, g, k)
  | fuel + 1, p, g, k =>
    match no_pipes s (toplevel s fuel) (s.length + 1) p g k with
    | (some (t1, p2), g, k) =>
      match charHit s p2 ['|'] with
      | some _ =>
        match toplevel s fuel (p2 + 1) g k with
        | (some (t2, p3), g, k) => (some (.node (.str ['|']) k [t1, t2], p3), g, k + 1)
        | (none, g, k) => no_pipes s (toplevel s fuel) (s.length + 1) p g k
      | none => no_pipes s (toplevel s fuel) (s.length + 1) p g k
    | (none, g, k) => no_pipes s (toplevel s fuel) (s.length + 1) p g k

/-- join(toplevel, end) of regexp_parse, run against the stripped pattern
    from offset 0 on the empty registry: the parse succeeds when toplevel
    succeeds and its end position is the length of the pattern. -/
def run_parse (s : List Char) : Option (RNode × List RNode) :=
  match toplevel s (s.length + 2) 0 [] 0 with
  | (some (t, p), g, _) => if p == s.length then some (t, g) else none
  | (none, _, _) => none

/-- Characters of the flag suffix class in the delimiter regex. -/
def gimChar (c : Char) : Bool := c == 'g' || c == 'i' || c == 'm'

/-- Line terminators, which the dot of a JavaScript regex does not match. -/
def lineTerm (c : Char) : Bool := c == '\n' || c == '\r'

/-- Whether index j can serve as the closing slash in a match of the
    delimiter regex against r: r starts with a slash, r at j is a slash,
    everything after j is a flag character and the middle is free of line
    terminators. -/
def splitCandidate (r : List Char) (j : Nat) : Bool :=
  decide (1 ≤ j) && (r.getD 0 'x' == '/') && (r.getD j 'x' == '/')
    && ((r.drop (j + 1)).all gimChar)
    && (((r.take j).drop 1).all (fun c => lineTerm c == false))

/-- The split chosen by the greedy dot-star of the delimiter regex: the
    rightmost candidate closing slash. -/
def lastSlashSplit (r : List Char) : Option Nat :=
  ((List.range r.length).reverse).find? (splitCandidate r)

/-- The delimiter match of regexp_parse: the stripped pattern and the flags
    record when the input has the form slash pattern slash flags. -/
def delimitedSplit (r : List Char) : Option (List Char × Flags) :=
  match lastSlashSplit r with
  | some j =>
    let fl := r.drop (j + 1)
    some ((r.take j).drop 1, { i := fl.contains 'i', m := fl.contains 'm', g := fl.contains 'g' })
  | none => none

/-- The string coercion of the JavaScript value undefined, which is what the
    flag tests of regexp.js receive when the delimiter regex did not match:
    pieces[2] is undefined and RegExp.test coerces it to this string.  That
    string contains the letter i. -/
def undefinedChars : List Char := "undefined".toList

/-- The error message of regexp_parse, naming the original input. -/
def failMsg (r : List Char) : List Char :=
  ("caterwaul.regexp(): failed to parse ".toList) ++ r

/-- The TypeError raised when the fallback regex of regexp_parse fails to
    match an input containing a line terminator and pieces[1] is read off
    null.  No claim exercises this path. -/
def crashMsg : List Char := "TypeError".toList

/-- regexp_parse of regexp.js under the default options: strip the delimiter
    form when present, otherwise treat the whole input as the pattern with
    the flag tests running against the coerced undefined capture; then parse
    and require full consumption, raising the error that names the input
    otherwise. -/
def regexp_parse (r : List Char) : Except (List Char) ParseResult :=
  match delimitedSplit r with
  | some (s, fl) =>
    match run_parse s with
    | some (t, g) => .ok { tree := t, groups := g, flags := fl }
    | none => .error (failMsg r)
  | none =>
    if r.any lineTerm then .error crashMsg
    else
      let fl : Flags :=
        { i := undefinedChars.contains 'i', m := undefinedChars.contains 'm',
          g := undefinedChars.contains 'g' }
      match run_parse r with
      | some (t, g) => .ok { tree := t, groups := g, flags := fl }
      | none => .error (failMsg r)

/-- match_groups() of regexp_methods: the context group registry. -/
def match_groups (pr : ParseResult) : List RNode := pr.groups

/-- The data field of a node; reading it off undefined is a TypeError. -/
def RNode.dataOf : RNode → Option RData
  | .undefined => none
  | .node d _ _ => some d

/-- The allocation id of a node, the stand-in for JavaScript object
    identity. -/
def RNode.idOf : RNode → Option Nat
  | .undefined => none
  | .node _ i _ => some i

/-- Child access this[k]; out of range reads give undefined. -/
def RNode.childAt : RNode → Nat → RNode
  | .undefined, _ => .undefined
  | .node _ _ kids, k => kids.getD k .undefined

/-- The length field of a node. -/
def RNode.arity : RNode → Nat
  | .undefined => 0
  | .node _ _ kids => kids.length

/-- Whether a value is the JavaScript undefined. -/
def RNode.isUndef : RNode → Bool
  | .undefined => true
  | .node _ _ _ => false

/-- Test of the is_one_or_more regex against a data string. -/
def plusQ (d : List Char) : Bool := d == ['+'] || d == ['+', '?']

/-- Test of the is_zero_or_more regex against a data string. -/
def starQ (d : List Char) : Bool := d == ['*'] || d == ['*', '?']

/-- Test of the is_optional regex against a data string. -/
def optQ (d : List Char) : Bool := d == ['?']

/-- Test of the is_repetition regex against a data string. -/
def repQ (d : List Char) : Bool :=
  plusQ d || starQ d || d == ['\x7b'] || d == ['\x7b', '?'] || optQ d

/-- Test of the is_zero_width regexes, including the two lookahead tags. -/
def zwQ (d : List Char) : Bool :=
  d == ['^'] || d == ['$'] || d == ['\\', 'B'] || d == ['\\', 'b']
    || d == ['(', '?', '='] || d == ['(', '?', '!']

/-- Test of the is_single_escape regex: a backslash followed by at least one
    character, none of which may be a line terminator since dot cannot match
    one. -/
def singleEscQ (d : List Char) : Bool :=
  match d with
  | '\\' :: rest => decide (rest.length ≥ 1) && rest.all (fun c => lineTerm c == false)
  | _ => false

/-- Test of the is_character_class regex: data starting with an open
    bracket. -/
def classQ (d : List Char) : Bool := d.headD ' ' == '['

/-- Test of the is_any_group regex: data starting with an open
    parenthesis. -/
def anyGroupQ (d : List Char) : Bool := d.headD ' ' == '('

/-- Word characters of the regex used by toString to rewrap long atoms. -/
def wordChar (c : Char) : Bool := c.isAlpha || c.isDigit || c == '_'

/-- lower_limit() restricted to what minimum_length consumes: the data value
    that the method returns, reading this[0].data for the brace forms.  A
    missing child zero is a TypeError there, hence none. -/
def lowerLimitData (d : RData) (kids : List RNode) : Option RData :=
  let dc := RData.toChars d
  if plusQ dc then some (.num 1)
  else if starQ dc || optQ dc then some (.num 0)
  else if dc.headD ' ' == '\x7b' then
    match kids.getD 0 .undefined with
    | .node d0 _ _ => some d0
    | .undefined => none
  else none

/-- minimum_length() of regexp_methods, with fuel standing in for the call
    stack; every claim below applies it with fuel far above the depth of the
    trees involved.  A read or call on undefined is none, and a non-numeric
    lower bound (unreachable from the grammar) is also folded into none. -/
def mlF : Nat → RNode → Option Nat
  | 0, _ => none
  | _ + 1, .undefined => none
  | fuel + 1, .node d _ kids =>
    let dc := RData.toChars d
    if zwQ dc then some 0
    else if singleEscQ dc || classQ dc then some 1
    else if repQ dc then
      match lowerLimitData d kids with
      | some (.num l) =>
        (mlF fuel (kids.getD (if dc.headD ' ' == '\x7b' then 2 else 0) .undefined)).map
          (fun m => l * m)
      | _ => none
    else if dc == ['('] || dc == ['(', '?', ':'] then mlF fuel (kids.getD 0 .undefined)
    else if dc == ['\\'] then mlF fuel (kids.getD 1 .undefined)
    else if dc == ['|'] && kids.length == 2 then
      match mlF fuel (kids.getD 0 .undefined), mlF fuel (kids.getD 1 .undefined) with
      | some a, some b => some (Nat.min a b)
      | _, _ => none
    else if dc == [','] && kids.length == 2 then
      match mlF fuel (kids.getD 0 .undefined), mlF fuel (kids.getD 1 .undefined) with
      | some a, some b => some (a + b)
      | _, _ => none
    else match d with
      | .str cs => some cs.length
      | _ => none

/-- minimum_length() with ample fuel for every tree a claim touches. -/
def minimum_length (t : RNode) : Option Nat := mlF 1000 t

/-- toString() of regexp_methods, with the same fuel convention; branch
    order follows the source.  The brace branch reads this[0].data and
    this[1].data, so an undefined child there is a TypeError. -/
def toStrF : Nat → RNode → Option (List Char)
  | 0, _ => none
  | _ + 1, .undefined => none
  | fuel + 1, .node d _ kids =>
    let dc := RData.toChars d
    if anyGroupQ dc then (toStrF fuel (kids.getD 0 .undefined)).map (fun c => dc ++ c ++ [')'])
    else if classQ dc then (toStrF fuel (kids.getD 0 .undefined)).map (fun c => dc ++ c ++ [']'])
    else if dc == ['-'] && kids.length == 2 then
      match toStrF fuel (kids.getD 0 .undefined), toStrF fuel (kids.getD 1 .undefined) with
      | some a, some b => some (a ++ ['-'] ++ b)
      | _, _ => none
    else if starQ dc || plusQ dc || optQ dc then
      (toStrF fuel (kids.getD 0 .undefined)).map (fun c => c ++ dc)
    else if repQ dc then
      match toStrF fuel (kids.getD 2 .undefined), RNode.dataOf (kids.getD 0 .undefined),
        RNode.dataOf (kids.getD 1 .undefined) with
      | some body, some d0, some d1 =>
        some (body ++
          (if d0 == d1 then ['\x7b'] ++ RData.toChars d0 ++ ['\x7d']
           else if d1 == .inf then ['\x7b'] ++ RData.toChars d0 ++ [','] ++ ['\x7d']
           else ['\x7b'] ++ RData.toChars d0 ++ [','] ++ RData.toChars d1 ++ ['\x7d']))
      | _, _, _ => none
    else if zwQ dc then some dc
    else if dc == ['\\'] then
      (RNode.dataOf (kids.getD 0 .undefined)).map (fun d0 => '\\' :: RData.toChars d0)
    else if dc == ['|'] && kids.length == 2 then
      match toStrF fuel (kids.getD 0 .undefined), toStrF fuel (kids.getD 1 .undefined) with
      | some a, some b => some (a ++ ['|'] ++ b)
      | _, _ => none
    else if dc == [','] && kids.length == 2 then
      match toStrF fuel (kids.getD 0 .undefined), toStrF fuel (kids.getD 1 .undefined) with
      | some a, some b => some (a ++ b)
      | _, _ => none
    else if kids.length == 0 then
      some (if decide (dc.length ≥ 2) && dc.all wordChar
            then ['(', '?', ':'] ++ dc ++ [')'] else dc)
    else some dc

/-- toString() with ample fuel for every tree a claim touches. -/
def toString (t : RNode) : Option (List Char) := toStrF 1000 t

/-- The tree of a successful parse, undefined otherwise. -/
def treeOf (r : List Char) : RNode :=
  match regexp_parse r with
  | .ok pr => pr.tree
  | .error _ => .undefined

/-- The final group registry of a successful parse. -/
def groupsOf (r : List Char) : List RNode :=
  match regexp_parse r with
  | .ok pr => match_groups pr
  | .error _ => []

/-- The flags of a successful parse. -/
def flagsOf (r : List Char) : Option Flags :=
  match regexp_parse r with
  | .ok pr => some pr.flags
  | .error _ => none

/-- Whether regexp_parse succeeds on an input. -/
def parseOk (r : List Char) : Bool :=
  match regexp_parse r with
  | .ok _ => true
  | .error _ => false

/-- The raised error of a failing parse. -/
def parseErr (r : List Char) : Option (List Char) :=
  match regexp_parse r with
  | .ok _ => none
  | .error e => some e

/-- Registry entry access, zero based as in the source array. -/
def groupAt (r : List Char) (k : Nat) : RNode := (groupsOf r).getD k .undefined

/-- minimum_length() of the parsed tree of an input. -/
def minLenOf (r : List Char) : Option Nat := minimum_length (treeOf r)

/-- The input of the C1 example: open a close, open b close, backslash
    one. -/
def c1s : List Char := ['(', 'a', ')', '(', 'b', ')', '\\', '1']

/-- The backreference node in the parse tree of the C1 input, at the end of
    the right comma spine. -/
def c1backref : RNode := ((treeOf c1s).childAt 1).childAt 1

set_option maxRecDepth 40000 in
set_option maxHeartbeats 4000000 in
/-- C1: the claim says the second child of an accepted backreference with
    ordinal n is the n-th capturing group registered so far, one based, as a
    structural link to that same node.  The code instead reads the zero
    based entry context.groups[n], and backtracking has already duplicated
    every registration: for the C1 input the second child is registry entry
    one, a re-registered copy of the first group; its id differs from the
    first registered entry, and it is not the group node of the returned
    tree either. -/
theorem C1_backreference_binding :
    parseOk c1s = true
    ∧ c1backref.dataOf = some (.str ['\\'])
    ∧ (c1backref.childAt 0).dataOf = some (.num 1)
    ∧ (c1backref.childAt 1).idOf = (groupAt c1s 1).idOf
    ∧ (c1backref.childAt 1).idOf ≠ (groupAt c1s 0).idOf
    ∧ toString (groupAt c1s 0) = some ("(a)".toList)
    ∧ toString (c1backref.childAt 1) = some ("(a)".toList)
    ∧ (c1backref.childAt 1).idOf ≠ ((treeOf c1s).childAt 0).idOf := by
  decide

/-- The input of the C2 example: a group enclosing the groups a and b. -/
def c2s : List Char := ['(', '(', 'a', ')', '(', 'b', ')', ')']

set_option maxRecDepth 40000 in
set_option maxHeartbeats 4000000 in
/-- C2 counterexample: match_groups() on the parse of the C2 input does not
    return three nodes; backtracking re-registration leaves many more. -/
theorem C2_match_groups_counterexample :
    ¬ ((groupsOf c2s).length = 3) := by
  decide

set_option maxRecDepth 40000 in
set_option maxHeartbeats 4000000 in
/-- C2 amended: the registry holds 104 entries for the C2 input, each
    capturing group appearing many times; groups register at their closing
    delimiter, nested before enclosing, so the distinct groups in order of
    first registration are the inner group a, then the inner group b, then
    the outer group. -/
theorem C2_match_groups_amended :
    parseOk c2s = true
    ∧ (groupsOf c2s).length = 104
    ∧ ((groupsOf c2s).map toString).dedup =
        [some ("(a)".toList), some ("(b)".toList), some ("((a)(b))".toList)] := by
  decide

/-- The input of the C3 example: one capturing group around a. -/
def c3s : List Char := ['(', 'a', ')']

set_option maxRecDepth 40000 in
set_option maxHeartbeats 4000000 in
/-- C3: the claim says the registry receives exactly one append per
    completed capturing group with no backtracking residue.  The code keeps
    every append made inside alternatives that later fail and re-parses on
    fallback, so the lone group of the C3 input ends up registered eight
    times. -/
theorem C3_registry_residue :
    parseOk c3s = true
    ∧ (groupsOf c3s).map toString = List.replicate 8 (some ("(a)".toList)) := by
  decide

/-- The unterminated-group input of the C4 and C5 examples. -/
def lparenA : List Char := ['(', 'a']

set_option maxRecDepth 40000 in
set_option maxHeartbeats 4000000 in
/-- C4: the claim says re-parsing toString of any parsed tree succeeds with
    equal minimum_length and group count.  The unterminated-group input
    parses successfully, but toString on its tree reads child zero of a
    childless open-parenthesis leaf, hence a TypeError and no output string
    at all; the balanced sibling shows toString itself is fine on ordinary
    trees. -/
theorem C4_roundtrip_toString_crash :
    parseOk lparenA = true
    ∧ toString (treeOf lparenA) = none
    ∧ toString (treeOf c3s) = some ("(a)".toList) := by
  decide

set_option maxRecDepth 40000 in
set_option maxHeartbeats 4000000 in
/-- C6: the claim says a non-delimited input yields a flagless tree with all
    three flag accessors false.  In the fallback the flag capture is
    undefined, the flag tests coerce it to the string undefined, and that
    string contains the letter i, so i() is true while m() and g() are
    false; the delimited flagless form, by contrast, really is all false. -/
theorem C6_fallback_flags :
    flagsOf ['a'] = some { i := true, m := false, g := false }
    ∧ flagsOf ['/', 'a', '/'] = some { i := false, m := false, g := false } := by
  decide

/-- The input of the C7 example: six capturing groups followed by backslash
    one zero. -/
def c7s : List Char :=
  ['(', 'a', ')', '(', 'b', ')', '(', 'c', ')', '(', 'd', ')', '(', 'e', ')',
   '(', 'f', ')', '\\', '1', '0']

/-- The backreference node in the parse tree of the C7 input, at the end of
    the right comma spine after the six groups. -/
def c7backref : RNode :=
  ((((((treeOf c7s).childAt 1).childAt 1).childAt 1).childAt 1).childAt 1).childAt 1

set_option maxRecDepth 40000 in
set_option maxHeartbeats 4000000 in
/-- C7: the claim says a two-digit backreference is accepted exactly when
    its value is at most the number of capturing groups completed so far,
    and then resolves to that group.  With six capturing groups the code
    still accepts backslash one zero, because it compares against the
    duplicate-inflated registry length of twenty four, and the zero based
    read then binds a node printing as the sixth group rather than a tenth
    group, which does not exist. -/
theorem C7_two_digit_backreference :
    parseOk c7s = true
    ∧ (c7s.count '(') = 6
    ∧ c7backref.dataOf = some (.str ['\\'])
    ∧ (c7backref.childAt 0).dataOf = some (.num 10)
    ∧ toString (c7backref.childAt 1) = some ("(f)".toList)
    ∧ (groupsOf c7s).length = 24 := by
  decide

/-- The input of the C8 example: backslash one with no preceding groups. -/
def c8s : List Char := ['\\', '1']

set_option maxRecDepth 40000 in
set_option maxHeartbeats 4000000 in
/-- C8: the claim says backslash one with zero preceding groups fails the
    backreference alternative and falls through to a literal one atom.  The
    single-digit branch has no bounds check, so it succeeds and returns a
    backreference node whose second child is the undefined read off the
    empty registry. -/
theorem C8_zero_groups_backreference :
    parseOk c8s = true
    ∧ (treeOf c8s).dataOf = some (.str ['\\'])
    ∧ (treeOf c8s).arity = 2
    ∧ ((treeOf c8s).childAt 0).dataOf = some (.num 1)
    ∧ ((treeOf c8s).childAt 1).isUndef = true := by
  decide

set_option maxRecDepth 40000 in
set_option maxHeartbeats 4000000 in
/-- C9: minimum_length is zero for the star pattern, one for the plus
    pattern and three for the bounded repetition, and on any brace
    repetition node it is the lower limit times the minimum length of the
    body. -/
theorem C9_minimum_length :
    minLenOf ['/', 'a', '*', '/'] = some 0
    ∧ minLenOf ['/', 'a', '+', '/'] = some 1
    ∧ minLenOf ['/', 'a', '\x7b', '3', ',', '5', '\x7d', '/'] = some 3
    ∧ ∀ (fuel l u i j k : Nat) (body : RNode),
        mlF (fuel + 1)
          (.node (.str ['\x7b']) i [.node (.num l) j [], .node (.num u) k [], body])
        = (mlF fuel body).map (fun m => l * m) :=
  ⟨by decide, by decide, by decide, fun _ _ _ _ _ _ _ => rfl⟩

set_option maxRecDepth 40000 in
set_option maxHeartbeats 4000000 in
/-- C10: the empty pattern always raises the parse failure error naming the
    original input, whether given as the empty string, as the bare delimiter
    pair, or as the delimiter pair with flags. -/
theorem C10_empty_pattern :
    parseErr [] = some (failMsg [])
    ∧ parseErr ['/', '/'] = some (failMsg ['/', '/'])
    ∧ parseErr ['/', '/', 'g', 'i', 'm'] = some (failMsg ['/', '/', 'g', 'i', 'm']) := by
  decide

end CaterwaulRegexp
